import Mathlib

set_option autoImplicit false

/-
  Verification development for the vid.ai demo frontend core
  (segmentation-session store, mask-propagation streaming consumer,
  and the Replace GL effect compositor).

  The definitions below are a shallow embedding of:
    demo/vid.ai/frontend/src/stores/editorStore.ts
    demo/vid.ai/frontend/src/api/videoService.ts (request shapes)
    demo/vid.ai/frontend/src/types.ts (data model)
    demo/frontend/src/common/components/video/effects/ReplaceGLEffect.ts

  Strings are modelled as `List Char`; JS number fields that are used as
  integers are modelled as `Nat`/`Int`; JS object maps keyed by frame
  index are modelled as association lists with JS-object lookup/update
  semantics (`getKey`/`setKey`); asynchronous service calls are modelled
  by passing the service outcome as an explicit argument; the `fetch`
  streaming reader is modelled as an explicit list of text chunks plus a
  flag saying whether `read()` eventually rejects.
-/

namespace VidAI

/-- Data model from types.ts: run-length encoding payload of one mask. -/
structure RLE where
  counts : List Char
  size : Nat × Nat
deriving DecidableEq

/-- Data model from types.ts: one object's mask on one frame. -/
structure MaskData where
  rle : RLE
  score : Nat
  object_id : Option Nat
deriving DecidableEq

/-- Data model from types.ts: all masks of a single frame. -/
structure FrameMasks where
  frame_idx : Nat
  masks : List MaskData
deriving DecidableEq

/-- Data model from types.ts: a click with its foreground/background label. -/
structure CanvasPoint where
  x : Int
  y : Int
  label : Nat
deriving DecidableEq

/-- Data model from types.ts: a decoded video frame reference. -/
structure VideoFrame where
  index : Nat
  timestamp : Nat
deriving DecidableEq

/-- Data model from types.ts: chat message author role. -/
inductive Role where
  | user
  | bot
deriving DecidableEq

/-- Data model from types.ts: one chat message. -/
structure ChatMessage where
  id : List Char
  role : Role
  content : List Char
deriving DecidableEq

/-- Data model from types.ts: one object mentioned by the LLM instructions. -/
structure ObjectInstruction where
  name : List Char
deriving DecidableEq

/-- Data model from types.ts: one effect requested by the LLM instructions. -/
structure EffectInstruction where
  type : List Char
  target : List Char
deriving DecidableEq

/-- Data model from types.ts: parsed LLM instructions. -/
structure ModelInstructions where
  objects : List ObjectInstruction
  effects : List EffectInstruction
  tracking : Bool
deriving DecidableEq

/-- Data model from types.ts: a gallery video entry. -/
structure GalleryVideo where
  id : List Char
  name : List Char
  path : List Char
deriving DecidableEq

/-- JS-object lookup: `m[k]`, `none` when the key is absent. -/
def getKey {α : Type} : List (Nat × α) → Nat → Option α
  | [], _ => none
  | (k1, v) :: rest, k => if k1 = k then some v else getKey rest k

/-- JS-object update: `m[k] = v`, replacing the binding or appending a new one. -/
def setKey {α : Type} : List (Nat × α) → Nat → α → List (Nat × α)
  | [], k, v => [(k, v)]
  | (k1, v1) :: rest, k, v =>
      if k1 = k then (k1, v) :: rest else (k1, v1) :: setKey rest k v

/-- The reactive state of the editor store (editorStore.ts, lines 8-19). -/
structure EditorState where
  isLoading : Bool
  currentVideo : Option GalleryVideo
  sessionId : Option (List Char)
  chatMessages : List ChatMessage
  currentFrame : Nat
  points : List (Nat × List CanvasPoint)
  masks : List (Nat × FrameMasks)
  videoFrames : List VideoFrame
  isProcessing : Bool
  processingProgress : Nat
  instructions : Option ModelInstructions
deriving DecidableEq

/-- The function resetEditorState (editorStore.ts, lines 87-96): clears points,
masks, current frame, video frames, chat messages, processing flags and
instructions; it does not touch sessionId, currentVideo or isLoading. -/
def resetEditorState (s : EditorState) : EditorState :=
  { s with
    points := []
    masks := []
    currentFrame := 0
    videoFrames := []
    chatMessages := []
    isProcessing := false
    processingProgress := 0
    instructions := none }

/-- The function endSession (editorStore.ts, lines 73-85). `backendOk` is the
outcome of the `videoService.endSession` DELETE request; the catch block only
logs it, and the finally block clears the session id and the video and resets
the editor state in every case. The returned Bool records whether a backend
request was issued at all (the early return on a missing session id issues
none). -/
def endSession (s : EditorState) (backendOk : Bool) : EditorState × Bool :=
  match s.sessionId with
  | none => (s, false)
  | some _ =>
      (resetEditorState { s with sessionId := none, currentVideo := none }, true)

/-- Request shape of `videoService.addPoints` (videoService.ts, lines 44-51). -/
structure AddPointsRequest where
  sessionId : List Char
  frameIdx : Nat
  points : List (Int × Int)
  labels : List Nat
deriving DecidableEq

/-- Outcome of an awaited service call, as seen by the caller. -/
inductive ServiceResult (α : Type) where
  | ok : α → ServiceResult α
  | err : ServiceResult α
deriving DecidableEq

/-- The synchronous first half of addPoint (editorStore.ts, lines 98-119): the
point is pushed onto the current frame's local point list; if a session is
active, the cumulative point and label arrays for that frame are computed and
the addPoints request is issued. The returned request is `none` exactly when
the early return on a missing session id fires. -/
def addPointIssue (s : EditorState) (point : CanvasPoint) :
    EditorState × Option AddPointsRequest :=
  let frameIdx := s.currentFrame
  let oldPts := (getKey s.points frameIdx).getD []
  let newPts := oldPts ++ [point]
  let s1 := { s with points := setKey s.points frameIdx newPts }
  match s.sessionId with
  | none => (s1, none)
  | some sid =>
      (s1, some
        { sessionId := sid
          frameIdx := frameIdx
          points := newPts.map (fun p => (p.x, p.y))
          labels := newPts.map (fun p => p.label) })

/-- The response half of addPoint (editorStore.ts, lines 121-125): on a
successful response the frame's mask entry is created if absent and its
`masks` field is overwritten with the returned masks. -/
def addPointComplete (s : EditorState) (frameIdx : Nat)
    (resultMasks : List MaskData) : EditorState :=
  let entry :=
    match getKey s.masks frameIdx with
    | none => { frame_idx := frameIdx, masks := resultMasks }
    | some fm => { fm with masks := resultMasks }
  { s with masks := setKey s.masks frameIdx entry }

/-- The function addPoint (editorStore.ts, lines 98-129) run to completion with
the given service outcome: the failure branch only logs, leaving the state as
it was after the point was recorded. -/
def addPoint (s : EditorState) (point : CanvasPoint)
    (svc : ServiceResult (List MaskData)) :
    EditorState × Option AddPointsRequest :=
  let issued := addPointIssue s point
  match issued.2 with
  | none => (issued.1, none)
  | some r =>
      match svc with
      | ServiceResult.ok ms => (addPointComplete issued.1 r.frameIdx ms, some r)
      | ServiceResult.err => (issued.1, some r)

/-- Cumulative request arguments that a call on the current state of the given
frame would send: the full point and label lists recorded for that frame
(editorStore.ts, lines 111-112). -/
def cumulativeArgs (s : EditorState) (frameIdx : Nat) :
    List (Int × Int) × List Nat :=
  (((getKey s.points frameIdx).getD []).map (fun p => (p.x, p.y)),
   ((getKey s.points frameIdx).getD []).map (fun p => p.label))

/-- Interleaving of two addPoint calls on the same state in which the second
request's response is applied before the first request's response: both
synchronous halves run (in issue order), then the completion handlers run in
arrival order R2, R1. Each completion writes to the frame index captured by
its own closure. -/
def addPointRace (s : EditorState) (p1 p2 : CanvasPoint)
    (r1 r2 : List MaskData) : EditorState :=
  let i1 := addPointIssue s p1
  let i2 := addPointIssue i1.1 p2
  let s2 :=
    match i2.2 with
    | some q2 => addPointComplete i2.1 q2.frameIdx r2
    | none => i2.1
  match i1.2 with
  | some q1 => addPointComplete s2 q1.frameIdx r1
  | none => s2

/-- Opening brace character, the first character of a serialized record. -/
def lbrace : Char := '\x7b'

/-- Closing brace character, the last character of a serialized record. -/
def rbrace : Char := '\x7d'

/-- Whitespace predicate matching what the JS `String.prototype.trim` removes
for the characters that can occur in this stream. -/
def isJsWhitespace (c : Char) : Bool :=
  c = ' ' || c = '\n' || c = '\t' || c = '\r'

/-- JS `text.trim()`: strip whitespace from both ends. -/
def trimChars (l : List Char) : List Char :=
  ((l.dropWhile isJsWhitespace).reverse.dropWhile isJsWhitespace).reverse

/-- JS `String.prototype.split` on a one-character separator: an empty string
yields `[[]]`, and separators at the ends yield empty fields. -/
def splitOnChar (sep : Char) : List Char → List (List Char)
  | [] => [[]]
  | c :: rest =>
      if c = sep then [] :: splitOnChar sep rest
      else
        match splitOnChar sep rest with
        | [] => [[c]]
        | line :: more => (c :: line) :: more

/-- JS `text.split('\n')` (editorStore.ts, line 152). -/
def splitLines (l : List Char) : List (List Char) :=
  splitOnChar '\n' l

/-- Numeric value of a decimal digit character. -/
def digitVal (c : Char) : Nat := c.toNat - 48

/-- Accumulating decimal parser over the remaining characters. -/
def parseNatAux : List Char → Nat → Option Nat
  | [], acc => some acc
  | c :: rest, acc =>
      if c.isDigit then parseNatAux rest (acc * 10 + digitVal c) else none

/-- Parse a nonempty all-digit character list as a natural number. -/
def parseNat (l : List Char) : Option Nat :=
  match l with
  | [] => none
  | _ :: _ => parseNatAux l 0

/-- Characters allowed inside an RLE counts payload on the wire. -/
def isCountsChar (c : Char) : Bool := c.isAlphanum

/-- Parse one serialized mask of a stream record: the fields
counts, height, width, score and object id separated by commas, the object id
written as an underscore when absent. This is the mask object of the
newline-delimited record format of §6 of the spec
(`\x7brle:\x7bcounts,size\x7d, score, object_id\x7d`). -/
def parseMaskEntry (l : List Char) : Option MaskData :=
  match splitOnChar ',' l with
  | [counts, h, w, score, objid] =>
      if counts ≠ [] ∧ counts.all isCountsChar then
        match parseNat h, parseNat w, parseNat score with
        | some hv, some wv, some sv =>
            if objid = ['_'] then
              some { rle := { counts := counts, size := (hv, wv) }, score := sv, object_id := none }
            else
              match parseNat objid with
              | some ov =>
                  some { rle := { counts := counts, size := (hv, wv) }, score := sv, object_id := some ov }
              | none => none
        | _, _, _ => none
      else none
  | _ => none

/-- Parse the masks field of a record: a possibly empty semicolon-separated
list of mask entries. -/
def parseMasksField (l : List Char) : Option (List MaskData) :=
  match l with
  | [] => some []
  | _ :: _ => (splitOnChar ';' l).mapM parseMaskEntry

/-- Character test for the interior of a record: a serialized record contains
no nested braces and no newline, so any proper fragment of a record is
rejected by the parser, exactly as `JSON.parse` rejects a JSON object split
across a chunk boundary. -/
def interiorOk (l : List Char) : Bool :=
  l.all (fun c => c ≠ lbrace && c ≠ rbrace && c ≠ '\n')

/-- Model of `JSON.parse(line) as FrameMasks` (editorStore.ts, line 156) for
the newline-delimited record stream of §6 of the spec: a line parses exactly
when it is one complete brace-delimited record `\x7bframe_idx|masks\x7d`;
any strict prefix or strict suffix of a record (a chunk fragment) fails. -/
def parseFrameMasksLine (l : List Char) : Option FrameMasks :=
  match l with
  | [] => none
  | c :: rest =>
      if c = lbrace then
        match rest.getLast? with
        | some d =>
            if d = rbrace then
              let interior := rest.dropLast
              if interiorOk interior then
                match splitOnChar '|' interior with
                | [fidxStr, masksField] =>
                    match parseNat fidxStr, parseMasksField masksField with
                    | some fidx, some ms => some { frame_idx := fidx, masks := ms }
                    | _, _ => none
                | _ => none
              else none
            else none
        | none => none
      else none

/-- The body of the propagation stream as delivered by the reader: the list of
decoded text chunks handed to successive `reader.read()` calls, and whether
the stream ends with a rejected read (connection or service failure) instead
of a clean `done`. -/
structure StreamScript where
  chunks : List (List Char)
  fails : Bool
deriving DecidableEq

/-- How a propagation run ended: `completed` for a clean `done`, `interrupted`
for the catch branch of propagateMasks (the stream error is caught and
logged). -/
inductive PropOutcome where
  | completed
  | interrupted
deriving DecidableEq

/-- Mutable locals of the propagation loop (editorStore.ts, lines 142-165)
plus the trace of values assigned to processingProgress inside the loop. -/
structure PropLoopState where
  masks : List (Nat × FrameMasks)
  receivedFrames : Nat
  processingProgress : Nat
  progressTrace : List Nat
deriving DecidableEq

/-- The totalFrames computation (editorStore.ts, line 143): the JS expression
`videoFrames.value.length || 100` falls back to 100 when no frames are
loaded. -/
def totalFramesFor (s : EditorState) : Nat :=
  if s.videoFrames.length = 0 then 100 else s.videoFrames.length

/-- The progress computation (editorStore.ts, line 161):
`Math.min(100, Math.floor((receivedFrames / totalFrames) * 100))`. -/
def jsProgress (received total : Nat) : Nat :=
  min 100 (received * 100 / total)

/-- One iteration of the inner line loop (editorStore.ts, lines 154-165): a
line that parses replaces that frame's entry in the mask map, bumps the
received count and updates the progress; a line that fails to parse is logged
and skipped. -/
def processLine (total : Nat) (st : PropLoopState) (line : List Char) :
    PropLoopState :=
  match parseFrameMasksLine line with
  | none => st
  | some fm =>
      let received := st.receivedFrames + 1
      let prog := jsProgress received total
      { masks := setKey st.masks fm.frame_idx fm
        receivedFrames := received
        processingProgress := prog
        progressTrace := st.progressTrace ++ [prog] }

/-- One iteration of the read loop (editorStore.ts, lines 145-166): the chunk
is decoded, trimmed, split into lines and each line is processed. -/
def processChunk (total : Nat) (st : PropLoopState) (chunk : List Char) :
    PropLoopState :=
  (splitLines (trimChars chunk)).foldl (processLine total) st

/-- Lines produced by a whole script, chunk by chunk. -/
def scriptLines (chunks : List (List Char)) : List (List Char) :=
  (chunks.map (fun c => splitLines (trimChars c))).flatten

/-- Records successfully parsed out of a whole script, in application order. -/
def scriptRecords (chunks : List (List Char)) : List FrameMasks :=
  (scriptLines chunks).filterMap parseFrameMasksLine

/-- Folding a list of records into a mask map, each record replacing its
frame's entry wholesale. -/
def applyRecords (ms : List (Nat × FrameMasks)) (records : List FrameMasks) :
    List (Nat × FrameMasks) :=
  records.foldl (fun m fm => setKey m fm.frame_idx fm) ms

/-- The function propagateMasks (editorStore.ts, lines 131-173) run against a
stream script. The guard (lines 132-134) returns `none` without touching the
state when there is no session id or no points on the start frame. Otherwise
the chunks are consumed in order; whether the stream then ends cleanly or the
next read rejects (the catch branch logs the error), the finally block clears
isProcessing and sets processingProgress to 100. The second component carries
the outcome together with the full ordered trace of values assigned to
processingProgress during the run. -/
def propagateMasks (s : EditorState) (startFrame : Nat)
    (script : StreamScript) :
    EditorState × Option (PropOutcome × List Nat) :=
  if s.sessionId = none ∨ (getKey s.points startFrame).getD [] = [] then
    (s, none)
  else
    let total := totalFramesFor s
    let st0 : PropLoopState :=
      { masks := s.masks, receivedFrames := 0, processingProgress := 0, progressTrace := [] }
    let stF := script.chunks.foldl (processChunk total) st0
    let outcome :=
      if script.fails then PropOutcome.interrupted else PropOutcome.completed
    ({ s with
        masks := stF.masks
        isProcessing := false
        processingProgress := 100 },
     some (outcome, 0 :: (stF.progressTrace ++ [100])))

/-- GL context resource state: a fresh-id allocator plus the list of texture
ids currently allocated. `gl.createTexture` allocates a fresh id,
`gl.deleteTexture` releases one. -/
structure GLState where
  nextId : Nat
  allocated : List Nat
deriving DecidableEq

/-- Model of `gl.createTexture()`. -/
def createTexture (g : GLState) : GLState × Nat :=
  ({ nextId := g.nextId + 1, allocated := g.allocated ++ [g.nextId] }, g.nextId)

/-- Model of `gl.deleteTexture(t)`. -/
def deleteTexture (g : GLState) (t : Nat) : GLState :=
  { g with allocated := g.allocated.filter (fun u => u ≠ t) }

/-- Modelled from the spec: the helper preAllocateTextures of
common/utils/ShaderUtils.ts is not under src/; §4.5 of the spec describes it
as pre-allocating the given bounded number of mask texture slots, so it is
modelled as n successive `gl.createTexture` calls. -/
def preAllocateTextures (g : GLState) (n : Nat) : GLState × List Nat :=
  match n with
  | 0 => (g, [])
  | k + 1 =>
      let c := createTexture g
      let r := preAllocateTextures c.1 k
      (r.1, c.2 :: r.2)

/-- Fields of ReplaceGLEffect (ReplaceGLEffect.ts, lines 33-44) relevant to
texture lifecycle and mask-slot indexing. -/
structure ReplaceGLEffect where
  extraTexture : Option Nat
  maskTextures : List Nat
deriving DecidableEq

/-- Texture unit where mask textures start (ReplaceGLEffect.ts, line 41). -/
def masksTextureUnitStart : Nat := 2

/-- The GL resource acquisitions of setupUniforms (ReplaceGLEffect.ts, lines
109-150): one extra texture for the replacement image is created, then
exactly 3 mask textures are pre-allocated. -/
def setupUniforms (g : GLState) : GLState × ReplaceGLEffect :=
  let c := createTexture g
  let r := preAllocateTextures c.1 3
  (r.1, { extraTexture := some c.2, maskTextures := r.2 })

/-- One mask-texture binding performed by the loop of apply
(ReplaceGLEffect.ts, lines 221-252): the slot index used to subscript
`_maskTextures`, the texture found there (`none` models the JS `undefined`
read past the end of the array), and the texture unit activated. -/
structure MaskBinding where
  slotIndex : Nat
  texture : Option Nat
  textureUnit : Nat
deriving DecidableEq

/-- The mask loop of apply (ReplaceGLEffect.ts, lines 221-252): it iterates
over every mask of the frame context with `forEach`, subscripting
`_maskTextures[index]` and activating texture unit
`index + _masksTextureUnitStart` for each, with no bound check, no cap at the
pre-allocated slot count and no error path. -/
def applyMaskBindings (e : ReplaceGLEffect) (masks : List MaskData) :
    List MaskBinding :=
  (List.range masks.length).map fun index =>
    { slotIndex := index
      texture := e.maskTextures.get? index
      textureUnit := index + masksTextureUnitStart }

/-- The GL resource releases of cleanup (ReplaceGLEffect.ts, lines 268-280):
each mask texture is deleted and the list is emptied; no other texture is
deleted by this class (`super.cleanup()` concerns the base class's own frame
texture, and `_extraTexture` is not touched). -/
def cleanup (g : GLState) (e : ReplaceGLEffect) : GLState × ReplaceGLEffect :=
  (e.maskTextures.foldl deleteTexture g, { e with maskTextures := [] })

/-- Example fixture: a foreground click at (50, 50). -/
def ptFG : CanvasPoint := { x := 50, y := 50, label := 1 }

/-- Example fixture: a second click at (60, 40). -/
def ptFG2 : CanvasPoint := { x := 60, y := 40, label := 1 }

/-- Example fixture: an editor state with an active session, one point on
frame 0 and one loaded video frame. -/
def sActive : EditorState :=
  { isLoading := false
    currentVideo := none
    sessionId := some ['s']
    chatMessages := []
    currentFrame := 0
    points := [(0, [ptFG])]
    masks := []
    videoFrames := [{ index := 0, timestamp := 0 }]
    isProcessing := false
    processingProgress := 0
    instructions := none }

/-- Example fixture: a serialized stream record for frame 5 holding one mask,
written `\x7b5|m,1,1,0,_\x7d`. -/
def recLine : List Char :=
  [lbrace, '5', '|', 'm', ',', '1', ',', '1', ',', '0', ',', '_', rbrace]

/-- Example fixture: the mask carried by `recLine`. -/
def maskM : MaskData :=
  { rle := { counts := ['m'], size := (1, 1) }, score := 0, object_id := none }

/-- Example fixture: a serialized stream record for frame 7 with no masks. -/
def recEmpty : List Char := [lbrace, '7', '|', rbrace]

/-- Example fixture: a stream whose concatenated content is the single
newline-terminated record `recLine`, delivered in two chunks whose boundary
splits the record after its sixth character. -/
def scriptSplit : StreamScript :=
  { chunks := [recLine.take 6, recLine.drop 6 ++ ['\n']], fails := false }

/-- Example fixture: a stream delivering two complete records in one chunk
and ending cleanly. -/
def scriptTwo : StreamScript :=
  { chunks := [recLine ++ '\n' :: recEmpty ++ ['\n']], fails := false }

/-- Example fixture: a stream delivering one complete record and then failing
on the next read. -/
def scriptFail : StreamScript :=
  { chunks := [recLine ++ ['\n']], fails := true }

/-- Example fixture: one mask result, distinguishable from `m2`. -/
def m1 : MaskData :=
  { rle := { counts := ['a'], size := (1, 1) }, score := 0, object_id := some 1 }

/-- Example fixture: another mask result, distinguishable from `m1`. -/
def m2 : MaskData :=
  { rle := { counts := ['b'], size := (1, 1) }, score := 0, object_id := some 1 }

/-- Example fixture: a fresh GL context with no allocated textures. -/
def glInit : GLState := { nextId := 0, allocated := [] }

/-- Example fixture: a frame context carrying four masks, one more than the
pre-allocated slot count. -/
def masks4 : List MaskData := [maskM, maskM, maskM, maskM]

/-- Looking a key up right after setting it yields the stored value. -/
theorem getKey_setKey_self {α : Type} (m : List (Nat × α)) (k : Nat) (v : α) :
    getKey (setKey m k v) k = some v := by
  induction m with
  | nil => simp [getKey, setKey]
  | cons hd tl ih =>
    obtain ⟨k1, v1⟩ := hd
    by_cases h : k1 = k
    · simp [getKey, setKey, h]
    · simp [getKey, setKey, h, ih]

/-- Setting one key leaves every other key's binding unchanged. -/
theorem getKey_setKey_ne {α : Type} (m : List (Nat × α)) (k k2 : Nat) (v : α)
    (h : k ≠ k2) : getKey (setKey m k v) k2 = getKey m k2 := by
  induction m with
  | nil => simp [getKey, setKey, h]
  | cons hd tl ih =>
    obtain ⟨k1, v1⟩ := hd
    by_cases hk : k1 = k
    · subst hk
      simp [getKey, setKey, h]
    · by_cases hk2 : k1 = k2
      · subst hk2
        simp [getKey, setKey, hk]
      · simp [getKey, setKey, hk, hk2, ih]

/-- Replaying records whose frame indices all avoid `i` does not change the
binding at `i`. -/
theorem getKey_applyRecords_of_not_mem (ms : List (Nat × FrameMasks))
    (records : List FrameMasks) (i : Nat)
    (h : ∀ fm ∈ records, fm.frame_idx ≠ i) :
    getKey (applyRecords ms records) i = getKey ms i := by
  induction records generalizing ms with
  | nil => rfl
  | cons fm rest ih =>
    have h1 : fm.frame_idx ≠ i := h fm (List.mem_cons_self fm rest)
    have h2 : ∀ g ∈ rest, g.frame_idx ≠ i :=
      fun g hg => h g (List.mem_cons_of_mem fm hg)
    show getKey (applyRecords (setKey ms fm.frame_idx fm) rest) i = getKey ms i
    rw [ih (setKey ms fm.frame_idx fm) h2, getKey_setKey_ne _ _ _ _ h1]

/-- The mask map after the inner line loop is the initial map with every
successfully parsed record folded in. -/
theorem foldl_processLine_masks (total : Nat) (lines : List (List Char))
    (st : PropLoopState) :
    (lines.foldl (processLine total) st).masks =
      applyRecords st.masks (lines.filterMap parseFrameMasksLine) := by
  induction lines generalizing st with
  | nil => rfl
  | cons line rest ih =>
    cases h : parseFrameMasksLine line with
    | none => simp [processLine, h, List.filterMap_cons, ih]
    | some fm => simp [processLine, h, List.filterMap_cons, ih, applyRecords]

/-- The received-frame counter advances by the number of successfully parsed
lines. -/
theorem foldl_processLine_received (total : Nat) (lines : List (List Char))
    (st : PropLoopState) :
    (lines.foldl (processLine total) st).receivedFrames =
      st.receivedFrames + (lines.filterMap parseFrameMasksLine).length := by
  induction lines generalizing st with
  | nil => simp
  | cons line rest ih =>
    cases h : parseFrameMasksLine line with
    | none => simp [processLine, h, List.filterMap_cons, ih]
    | some fm =>
      simp [processLine, h, List.filterMap_cons, ih]
      omega

/-- The progress values recorded by the inner line loop are the progress
formula evaluated at the successive received counts. -/
theorem foldl_processLine_trace (total : Nat) (lines : List (List Char))
    (st : PropLoopState) :
    (lines.foldl (processLine total) st).progressTrace =
      st.progressTrace ++
        (List.range' (st.receivedFrames + 1)
            (lines.filterMap parseFrameMasksLine).length).map
          (fun i => jsProgress i total) := by
  induction lines generalizing st with
  | nil => simp
  | cons line rest ih =>
    cases h : parseFrameMasksLine line with
    | none => simp [processLine, h, List.filterMap_cons, ih]
    | some fm =>
      simp only [List.foldl_cons, processLine, h, List.filterMap_cons]
      rw [ih]
      simp [List.range'_succ]

/-- Consuming the chunks one by one is the same as consuming the
concatenation of their line lists. -/
theorem foldl_processChunk_eq (total : Nat) (chunks : List (List Char))
    (st : PropLoopState) :
    chunks.foldl (processChunk total) st =
      (scriptLines chunks).foldl (processLine total) st := by
  induction chunks generalizing st with
  | nil => rfl
  | cons c rest ih =>
    simp [scriptLines, List.foldl_append, ih, processChunk]

/-- The progress formula never exceeds 100. -/
theorem jsProgress_le_100 (i total : Nat) : jsProgress i total ≤ 100 :=
  min_le_left _ _

/-- The progress formula is monotone in the received count. -/
theorem jsProgress_mono (total : Nat) {i j : Nat} (h : i ≤ j) :
    jsProgress i total ≤ jsProgress j total := by
  unfold jsProgress
  exact min_le_min (le_refl 100) (Nat.div_le_div_right (mul_le_mul_right' h 100))

/-- Progress values over consecutive received counts are non-decreasing. -/
theorem chain'_le_map_range' (total : Nat) :
    ∀ (k a : Nat),
      List.Chain' (· ≤ ·)
        ((List.range' a k).map (fun i => jsProgress i total))
  | 0, _ => by simp
  | k + 1, a => by
    rw [List.range'_succ]
    simp only [List.map_cons]
    rw [List.chain'_cons']
    refine ⟨?_, chain'_le_map_range' total k (a + 1)⟩
    intro y hy
    cases k with
    | zero => simp at hy
    | succ k2 =>
      rw [List.range'_succ] at hy
      simp only [List.map_cons, List.head?_cons, Option.mem_def,
        Option.some.injEq] at hy
      rw [← hy]
      exact jsProgress_mono total (Nat.le_succ a)

/-- The full progress trace of a run, the initial 0 and the final 100
included, is non-decreasing. -/
theorem chain'_trace_le (total k : Nat) :
    List.Chain' (· ≤ ·)
      (0 :: ((List.range' 1 k).map (fun i => jsProgress i total) ++ [100])) := by
  rw [List.chain'_cons']
  refine ⟨fun y _ => Nat.zero_le y, ?_⟩
  rw [List.chain'_append]
  refine ⟨chain'_le_map_range' total k 1, List.chain'_singleton 100, ?_⟩
  intro x hx y hy
  simp only [List.head?_cons, Option.mem_def, Option.some.injEq] at hy
  have hmem : x ∈ (List.range' 1 k).map (fun i => jsProgress i total) :=
    List.mem_of_mem_getLast? hx
  obtain ⟨i, _, hi⟩ := List.mem_map.mp hmem
  rw [← hy, ← hi]
  exact jsProgress_le_100 i total

/-- Claim C10: endSession always leaves the client with no active session,
regardless of whether the backend delete request succeeds or fails: the
session identifier and current video are cleared and all editor state
(points, masks, current frame, video frames, chat messages, processing flag
and progress, instructions) is reset, and a subsequent endSession call on the
already-cleared state issues no network request and changes nothing. -/
theorem endSession_clears_and_idempotent (s : EditorState) (b b2 : Bool)
    (sid : List Char) (h : s.sessionId = some sid) :
    (endSession s b).1.sessionId = none ∧
    (endSession s b).1.currentVideo = none ∧
    (endSession s b).1.points = [] ∧
    (endSession s b).1.masks = [] ∧
    (endSession s b).1.currentFrame = 0 ∧
    (endSession s b).1.videoFrames = [] ∧
    (endSession s b).1.chatMessages = [] ∧
    (endSession s b).1.isProcessing = false ∧
    (endSession s b).1.processingProgress = 0 ∧
    (endSession s b).1.instructions = none ∧
    (endSession s b).2 = true ∧
    endSession (endSession s b).1 b2 = ((endSession s b).1, false) := by
  simp [endSession, h, resetEditorState]

/-- Witness for C10 at the concrete active state, with a failing backend
delete on the first call. -/
theorem endSession_clears_and_idempotent_witness :
    sActive.sessionId = some ['s'] ∧
    ((endSession sActive false).1.sessionId = none ∧
     (endSession sActive false).1.currentVideo = none ∧
     (endSession sActive false).1.points = [] ∧
     (endSession sActive false).1.masks = [] ∧
     (endSession sActive false).1.currentFrame = 0 ∧
     (endSession sActive false).1.videoFrames = [] ∧
     (endSession sActive false).1.chatMessages = [] ∧
     (endSession sActive false).1.isProcessing = false ∧
     (endSession sActive false).1.processingProgress = 0 ∧
     (endSession sActive false).1.instructions = none ∧
     (endSession sActive false).2 = true ∧
     endSession (endSession sActive false).1 true =
       ((endSession sActive false).1, false)) :=
  ⟨by decide, endSession_clears_and_idempotent sActive false true ['s'] (by decide)⟩

/-- Claim C4: adding a point appends it to the frame's accumulated point
list, removing or replacing nothing, and the segmentation request carries the
full cumulative point and label lists for that frame, whatever the service
outcome. -/
theorem addPoint_cumulative (s : EditorState) (p : CanvasPoint)
    (svc : ServiceResult (List MaskData)) (sid : List Char)
    (h : s.sessionId = some sid) :
    getKey (addPoint s p svc).1.points s.currentFrame =
      some (((getKey s.points s.currentFrame).getD []) ++ [p]) ∧
    (addPoint s p svc).2 =
      some
        { sessionId := sid
          frameIdx := s.currentFrame
          points := (((getKey s.points s.currentFrame).getD []) ++ [p]).map
            (fun q => (q.x, q.y))
          labels := (((getKey s.points s.currentFrame).getD []) ++ [p]).map
            (fun q => q.label) } := by
  cases svc <;>
    simp [addPoint, addPointIssue, addPointComplete, h, getKey_setKey_self]

/-- Witness for C4 at the concrete active state with a successful service
call returning one mask. -/
theorem addPoint_cumulative_witness :
    sActive.sessionId = some ['s'] ∧
    (getKey (addPoint sActive ptFG2 (ServiceResult.ok [m1])).1.points
        sActive.currentFrame =
      some (((getKey sActive.points sActive.currentFrame).getD []) ++ [ptFG2]) ∧
    (addPoint sActive ptFG2 (ServiceResult.ok [m1])).2 =
      some
        { sessionId := ['s']
          frameIdx := sActive.currentFrame
          points := (((getKey sActive.points sActive.currentFrame).getD [])
              ++ [ptFG2]).map (fun q => (q.x, q.y))
          labels := (((getKey sActive.points sActive.currentFrame).getD [])
              ++ [ptFG2]).map (fun q => q.label) }) :=
  ⟨by decide,
   addPoint_cumulative sActive ptFG2 (ServiceResult.ok [m1]) ['s'] (by decide)⟩

/-- Claim C5: when the segmentation service call errors, the point stays
recorded in the frame's accumulated prompt list and the mask map is
untouched, and the argument lists that the failed call sent coincide with the
cumulative argument lists a retry would rebuild from the post-failure state,
so no point needs re-entering. -/
theorem addPoint_error_keeps_prompt (s : EditorState) (p : CanvasPoint)
    (sid : List Char) (h : s.sessionId = some sid) :
    (addPoint s p ServiceResult.err).1.masks = s.masks ∧
    getKey (addPoint s p ServiceResult.err).1.points s.currentFrame =
      some (((getKey s.points s.currentFrame).getD []) ++ [p]) ∧
    (addPoint s p ServiceResult.err).1.currentFrame = s.currentFrame ∧
    (addPoint s p ServiceResult.err).2.map (fun r => (r.points, r.labels)) =
      some (cumulativeArgs (addPoint s p ServiceResult.err).1 s.currentFrame) := by
  simp [addPoint, addPointIssue, h, cumulativeArgs, getKey_setKey_self]

/-- Witness for C5 at the concrete active state. -/
theorem addPoint_error_keeps_prompt_witness :
    sActive.sessionId = some ['s'] ∧
    ((addPoint sActive ptFG2 ServiceResult.err).1.masks = sActive.masks ∧
    getKey (addPoint sActive ptFG2 ServiceResult.err).1.points
        sActive.currentFrame =
      some (((getKey sActive.points sActive.currentFrame).getD []) ++ [ptFG2]) ∧
    (addPoint sActive ptFG2 ServiceResult.err).1.currentFrame =
      sActive.currentFrame ∧
    (addPoint sActive ptFG2 ServiceResult.err).2.map
        (fun r => (r.points, r.labels)) =
      some (cumulativeArgs (addPoint sActive ptFG2 ServiceResult.err).1
        sActive.currentFrame)) :=
  ⟨by decide, addPoint_error_keeps_prompt sActive ptFG2 ['s'] (by decide)⟩

/-- Claim C6, counterexample: on the concrete active state, ending the
session and then calling propagateMasks neither raises any error nor touches
the backend: the call returns the state unchanged with no run performed (the
`none` second component is the early return of the guard), refuting the
claim that the call fails with SessionNotFound rather than silently doing
nothing. -/
theorem propagate_after_end_noop :
    (endSession sActive true).1.sessionId = none ∧
    propagateMasks (endSession sActive true).1 0 scriptTwo =
      ((endSession sActive true).1, none) := by decide

/-- Claim C6, amended: after endSession, a propagateMasks call for any frame
and any stream returns immediately without effect: the state is returned
unchanged and no stream is opened and no error of any kind is produced. -/
theorem endSession_then_propagate_noop (s : EditorState) (b : Bool) (f : Nat)
    (script : StreamScript) :
    propagateMasks (endSession s b).1 f script = ((endSession s b).1, none) := by
  have hsid : (endSession s b).1.sessionId = none := by
    cases hs : s.sessionId <;> simp [endSession, hs, resetEditorState]
  unfold propagateMasks
  rw [if_pos (Or.inl hsid)]

/-- Claim C3, counterexample: two addPoints requests on the same (frame 0)
key, issued in order R1 then R2, whose responses arrive in the order R2 then
R1: the stored mask list is R1's result `[m1]`, not R2's result `[m2]` — the
store applies responses in arrival order with no per-key write sequencing, so
the stale result wins. -/
theorem addPointRace_stale_overwrites :
    m1 ≠ m2 ∧
    getKey (addPointRace sActive ptFG ptFG2 [m1] [m2]).masks 0 =
      some { frame_idx := 0, masks := [m1] } ∧
    getKey (addPointRace sActive ptFG ptFG2 [m1] [m2]).masks 0 ≠
      some { frame_idx := 0, masks := [m2] } := by decide

/-- Claim C3, amended: for every pair of addPoints requests on the same
(object, frame) key where R2 is issued after R1 but R1's response arrives
after R2's, the mask stored for that key is the result of the response that
arrived last — R1's stale result — because each response handler overwrites
the frame's entry unconditionally and no request counter or other per-key
sequencing exists. -/
theorem addPointRace_last_arrival_wins (s : EditorState) (sid : List Char)
    (h : s.sessionId = some sid) (p1 p2 : CanvasPoint)
    (r1 r2 : List MaskData) :
    (getKey (addPointRace s p1 p2 r1 r2).masks s.currentFrame).map
      (fun fm => fm.masks) = some r1 := by
  cases hgk : getKey s.masks s.currentFrame <;>
    simp [addPointRace, addPointIssue, addPointComplete, h, hgk,
      getKey_setKey_self]

/-- Witness for the amended C3 at the concrete active state. -/
theorem addPointRace_last_arrival_wins_witness :
    sActive.sessionId = some ['s'] ∧
    (getKey (addPointRace sActive ptFG ptFG2 [m1] [m2]).masks
        sActive.currentFrame).map (fun fm => fm.masks) = some [m1] :=
  ⟨by decide, addPointRace_last_arrival_wins sActive ['s'] (by decide) ptFG ptFG2 [m1] [m2]⟩

/-- Claim C2: when the stream fails mid-propagation after some records were
applied, the run takes its failure path (the interruption is reported through
the catch branch) and no rollback happens: the final mask map is exactly the
initial map with every record applied before the failure folded in, and every
frame no applied record named keeps the binding it had before propagation
started. -/
theorem propagateMasks_partial_failure (s : EditorState) (startFrame : Nat)
    (script : StreamScript)
    (hsid : s.sessionId ≠ none)
    (hpts : (getKey s.points startFrame).getD [] ≠ [])
    (hfail : script.fails = true) :
    (propagateMasks s startFrame script).2.map Prod.fst =
      some PropOutcome.interrupted ∧
    (propagateMasks s startFrame script).1.masks =
      applyRecords s.masks (scriptRecords script.chunks) ∧
    ∀ i : Nat, (∀ fm ∈ scriptRecords script.chunks, fm.frame_idx ≠ i) →
      getKey (propagateMasks s startFrame script).1.masks i =
        getKey s.masks i := by
  have hguard : ¬(s.sessionId = none ∨ (getKey s.points startFrame).getD [] = []) := by
    push_neg
    exact ⟨hsid, hpts⟩
  have hmasks : (propagateMasks s startFrame script).1.masks =
      applyRecords s.masks (scriptRecords script.chunks) := by
    simp only [propagateMasks, if_neg hguard]
    rw [foldl_processChunk_eq, foldl_processLine_masks]
    rfl
  refine ⟨?_, hmasks, ?_⟩
  · simp [propagateMasks, if_neg hguard, hfail]
  · intro i hi
    rw [hmasks, getKey_applyRecords_of_not_mem _ _ _ hi]

/-- Witness for C2 at the concrete active state with a stream that delivers
one record for frame 5 and then fails. -/
theorem propagateMasks_partial_failure_witness :
    sActive.sessionId ≠ none ∧
    (getKey sActive.points 0).getD [] ≠ [] ∧
    scriptFail.fails = true ∧
    ((propagateMasks sActive 0 scriptFail).2.map Prod.fst =
      some PropOutcome.interrupted ∧
    (propagateMasks sActive 0 scriptFail).1.masks =
      applyRecords sActive.masks (scriptRecords scriptFail.chunks) ∧
    ∀ i : Nat, (∀ fm ∈ scriptRecords scriptFail.chunks, fm.frame_idx ≠ i) →
      getKey (propagateMasks sActive 0 scriptFail).1.masks i =
        getKey sActive.masks i) :=
  ⟨by decide, by decide, rfl,
   propagateMasks_partial_failure sActive 0 scriptFail (by decide) (by decide) rfl⟩

/-- Claim C1: the propagation consumer does not buffer partial lines. At this
failing input the stream's concatenated content is one complete
newline-terminated record for frame 5 (which the line parser accepts), yet
because the chunk boundary splits the record, each fragment is JSON-parsed on
its own and rejected, so the record is never applied: frame 5 has no mask
after the run. -/
theorem propagate_drops_split_record :
    scriptSplit.chunks.flatten = recLine ++ ['\n'] ∧
    parseFrameMasksLine recLine = some { frame_idx := 5, masks := [maskM] } ∧
    getKey (propagateMasks sActive 0 scriptSplit).1.masks 5 = none := by decide

/-- Claim C8, counterexample: on the concrete state with exactly one loaded
video frame (totalFrames = 1), a clean stream of two records makes the
progress trace [0, 100, 100, 100]: the value 100 is assigned on applying the
first record, while the second record's update is still to be applied — so
the progress reaches 100% before the run has completed, refuting the claim
that it reaches 100% only on completion or failure. -/
theorem progress_hits_100_early :
    (scriptRecords scriptTwo.chunks).length = 2 ∧
    (propagateMasks sActive 0 scriptTwo).2 =
      some (PropOutcome.completed, [0, 100, 100, 100]) := by decide

/-- Claim C8, amended: during any single propagation run the recorded
progress values are monotonically non-decreasing and the trace ends at 100
(the finally block sets 100 on completion and on failure alike); however the
progress can already reach 100 while record updates are still being applied,
once the received count reaches the totalFrames estimate. -/
theorem propagateMasks_progress_monotone (s : EditorState) (startFrame : Nat)
    (script : StreamScript) (out : PropOutcome) (tr : List Nat)
    (h : (propagateMasks s startFrame script).2 = some (out, tr)) :
    List.Chain' (· ≤ ·) tr ∧ tr.getLast? = some 100 := by
  by_cases hguard : s.sessionId = none ∨ (getKey s.points startFrame).getD [] = []
  · rw [propagateMasks, if_pos hguard] at h
    exact absurd h (by simp)
  · have htr : tr =
        0 :: ((List.range' 1 (scriptRecords script.chunks).length).map
          (fun i => jsProgress i (totalFramesFor s)) ++ [100]) := by
      rw [propagateMasks, if_neg hguard] at h
      simp only at h
      rw [foldl_processChunk_eq, foldl_processLine_trace] at h
      simp only [scriptRecords, Option.some.injEq, Prod.mk.injEq] at h ⊢
      rw [← h.2]
      simp
    rw [htr]
    refine ⟨chain'_trace_le (totalFramesFor s) _, ?_⟩
    rw [show (0 : Nat) ::
          ((List.range' 1 (scriptRecords script.chunks).length).map
            (fun i => jsProgress i (totalFramesFor s)) ++ [100]) =
        (0 :: (List.range' 1 (scriptRecords script.chunks).length).map
            (fun i => jsProgress i (totalFramesFor s))) ++ [100] from rfl]
    exact List.getLast?_concat _

/-- Witness for the amended C8 at the concrete active state and the
two-record clean stream. -/
theorem propagateMasks_progress_monotone_witness :
    (propagateMasks sActive 0 scriptTwo).2 =
      some (PropOutcome.completed, [0, 100, 100, 100]) ∧
    (List.Chain' (· ≤ ·) [0, 100, 100, 100] ∧
      ([0, 100, 100, 100] : List Nat).getLast? = some 100) :=
  ⟨by decide,
   propagateMasks_progress_monotone sActive 0 scriptTwo PropOutcome.completed
     [0, 100, 100, 100] (by decide)⟩

/-- Claim C7, counterexample: the effect pre-allocates exactly 3 mask
textures, yet when a frame context carries 4 masks the apply loop produces a
binding for slot index 3 — one past the pre-allocated slots — reading the JS
`undefined` (`none`) there and activating texture unit 5, with no
TooManyObjects failure and no restriction to the first 3 masks. -/
theorem apply_exceeds_mask_slots :
    (setupUniforms glInit).2.maskTextures.length = 3 ∧
    (applyMaskBindings (setupUniforms glInit).2 masks4).map
      (fun b => b.slotIndex) = [0, 1, 2, 3] ∧
    (applyMaskBindings (setupUniforms glInit).2 masks4).get? 3 =
      some { slotIndex := 3, texture := none, textureUnit := 5 } := by decide

/-- Claim C7, amended: the compositor pre-allocates exactly 3 mask texture
slots, but apply iterates over every mask of the frame with no bound check
and no TooManyObjects error: the slot indices it subscripts are exactly
0..masks.length-1, and every access at slot index 3 or beyond finds no
texture (the JS undefined read past the pre-allocated array). -/
theorem applyMaskBindings_unbounded (g : GLState) (masks : List MaskData) :
    (setupUniforms g).2.maskTextures.length = 3 ∧
    (applyMaskBindings (setupUniforms g).2 masks).map (fun b => b.slotIndex) =
      List.range masks.length ∧
    ∀ b ∈ applyMaskBindings (setupUniforms g).2 masks,
      3 ≤ b.slotIndex → b.texture = none := by
  have hlen : (setupUniforms g).2.maskTextures.length = 3 := by
    simp [setupUniforms, preAllocateTextures, createTexture]
  refine ⟨hlen, ?_, ?_⟩
  · simp [applyMaskBindings, List.map_map, Function.comp_def]
  · intro b hb hslot
    simp only [applyMaskBindings, List.mem_map, List.mem_range] at hb
    obtain ⟨i, hi, hbeq⟩ := hb
    rw [← hbeq] at hslot ⊢
    simp only at hslot ⊢
    exact List.get?_eq_none.mpr (by rw [hlen]; exact hslot)

/-- Witness for the amended C7 at the fresh GL context and the four-mask
frame context. -/
theorem applyMaskBindings_unbounded_witness :
    (setupUniforms glInit).2.maskTextures.length = 3 ∧
    (applyMaskBindings (setupUniforms glInit).2 masks4).map
      (fun b => b.slotIndex) = List.range masks4.length ∧
    ∀ b ∈ applyMaskBindings (setupUniforms glInit).2 masks4,
      3 ≤ b.slotIndex → b.texture = none :=
  applyMaskBindings_unbounded glInit masks4

/-- Claim C9, counterexample: starting from a fresh GL context, setup
acquires the extra replacement-image texture (id 0) and the 3 mask textures
(ids 1, 2, 3); cleanup deletes the mask textures but after it the extra
texture id 0 is still allocated — a setup-acquired GPU resource survives
teardown, refuting the claim that every setup-acquired texture is released. -/
theorem cleanup_leaks_extra_texture :
    (setupUniforms glInit).2.extraTexture = some 0 ∧
    (setupUniforms glInit).1.allocated = [0, 1, 2, 3] ∧
    (cleanup (setupUniforms glInit).1 (setupUniforms glInit).2).1.allocated =
      [0] := by decide

/-- Claim C9, amended: cleanup releases exactly the 3 pre-allocated mask
textures; the extra replacement-image texture acquired during setup is never
deleted and remains allocated after cleanup, whatever the prior GL state. -/
theorem cleanup_releases_masks_not_extra (g : GLState) :
    (∀ t ∈ (setupUniforms g).2.maskTextures,
        t ∉ (cleanup (setupUniforms g).1 (setupUniforms g).2).1.allocated) ∧
    (setupUniforms g).2.extraTexture = some g.nextId ∧
    g.nextId ∈ (cleanup (setupUniforms g).1 (setupUniforms g).2).1.allocated := by
  simp only [setupUniforms, preAllocateTextures, createTexture, cleanup,
    deleteTexture, List.foldl_cons, List.foldl_nil]
  refine ⟨?_, by simp, ?_⟩
  · intro t ht
    simp only [List.mem_cons, List.not_mem_nil, or_false] at ht
    rcases ht with rfl | rfl | rfl <;> simp [List.mem_filter]
  · simp [List.mem_filter, List.mem_append]
    omega

/-- Witness for the amended C9 at the fresh GL context. -/
theorem cleanup_releases_masks_not_extra_witness :
    (∀ t ∈ (setupUniforms glInit).2.maskTextures,
        t ∉ (cleanup (setupUniforms glInit).1 (setupUniforms glInit).2).1.allocated) ∧
    (setupUniforms glInit).2.extraTexture = some glInit.nextId ∧
    glInit.nextId ∈
      (cleanup (setupUniforms glInit).1 (setupUniforms glInit).2).1.allocated :=
  cleanup_releases_masks_not_extra glInit

end VidAI
